import Mathlib

/-
  Verification of the quota-accounting ledger and webhook bridge of the
  bert-chart-scanner repository, shallowly embedded from the Python source
  (src/config.py, src/database.py, src/bot.py, src/web_server.py).

  Conventions of the embedding:
  * SQLite tables become Lean lists of row structures; SELECT ... fetchone
    becomes List.find?; UPDATE ... WHERE user_id = ? maps the update over
    every matching row (the PRIMARY KEY makes at most one row match in
    reachable states).
  * Timestamps are modelled as Int seconds; ISO-format string comparison in
    the source is order-isomorphic to comparison of the underlying instants.
    datetime.utcnow() becomes an explicit `now : Int` parameter and the
    "%Y-%m-%d" day key an explicit `today : String` parameter.
  * Python functions that can raise become Except String; a raised exception
    is Except.error.
  * hashlib.md5 (used by get_or_create_user for referral codes) is embedded
    as a full executable MD5 over byte lists, per RFC 1321.
-/

namespace BertScanner

/-! ### Configuration constants (src/config.py) -/

def FREE_DAILY_SCANS : Int := 3

def ENERGY_REFILL_STARS : Int := 5

def REFERRAL_BONUS_SCANS : Int := 5

/-! ### MD5 (embedding of hashlib.md5, RFC 1321), used for referral codes -/

/-- The 64 MD5 sine-derived additive constants. -/
def md5K : List Nat := [
  3614090360, 3905402710, 606105819, 3250441966,
  4118548399, 1200080426, 2821735955, 4249261313,
  1770035416, 2336552879, 4294925233, 2304563134,
  1804603682, 4254626195, 2792965006, 1236535329,
  4129170786, 3225465664, 643717713, 3921069994,
  3593408605, 38016083, 3634488961, 3889429448,
  568446438, 3275163606, 4107603335, 1163531501,
  2850285829, 4243563512, 1735328473, 2368359562,
  4294588738, 2272392833, 1839030562, 4259657740,
  2763975236, 1272893353, 4139469664, 3200236656,
  681279174, 3936430074, 3572445317, 76029189,
  3654602809, 3873151461, 530742520, 3299628645,
  4096336452, 1126891415, 2878612391, 4237533241,
  1700485571, 2399980690, 4293915773, 2240044497,
  1873313359, 4264355552, 2734768916, 1309151649,
  4149444226, 3174756917, 718787259, 3951481745]

/-- The 64 MD5 per-round left-rotation amounts. -/
def md5S : List Nat := [
  7, 12, 17, 22, 7, 12, 17, 22, 7, 12, 17, 22, 7, 12, 17, 22,
  5, 9, 14, 20, 5, 9, 14, 20, 5, 9, 14, 20, 5, 9, 14, 20,
  4, 11, 16, 23, 4, 11, 16, 23, 4, 11, 16, 23, 4, 11, 16, 23,
  6, 10, 15, 21, 6, 10, 15, 21, 6, 10, 15, 21, 6, 10, 15, 21]

def mask32 : Nat := 4294967296

/-- 32-bit left rotation. -/
def rotl32 (x c : Nat) : Nat :=
  ((x <<< c) ||| (x >>> (32 - c))) % mask32

/-- 32-bit bitwise complement. -/
def not32 (x : Nat) : Nat := Nat.xor x 4294967295

/-- Little-endian byte expansion of a Nat, `n` bytes. -/
def leBytes : Nat → Nat → List Nat
  | 0, _ => []
  | n + 1, x => x % 256 :: leBytes n (x / 256)

/-- Group a byte list into little-endian 32-bit words (4 bytes each). -/
def toWords : List Nat → List Nat
  | b0 :: b1 :: b2 :: b3 :: rest =>
      (b0 + 256 * b1 + 65536 * b2 + 16777216 * b3) :: toWords rest
  | _ => []

/-- Fuel-driven split into 64-byte chunks (structural, so the kernel can
evaluate it). -/
def chunks64Aux : Nat → List Nat → List (List Nat)
  | 0, _ => []
  | _, [] => []
  | fuel + 1, l => l.take 64 :: chunks64Aux fuel (l.drop 64)

def chunks64 (l : List Nat) : List (List Nat) := chunks64Aux l.length l

/-- MD5 padding: append 0x80, zeros to 56 mod 64, then the 8-byte
little-endian bit length. -/
def md5Pad (msg : List Nat) : List Nat :=
  msg ++ [128] ++ List.replicate ((119 - (msg.length % 64)) % 64) 0
      ++ leBytes 8 (8 * msg.length)

/-- One MD5 round step: `i` is the round index, `M` the 16 message words of
the current block, state is (A, B, C, D). -/
def md5Step (M : List Nat) (st : Nat × Nat × Nat × Nat) (i : Nat) :
    Nat × Nat × Nat × Nat :=
  let (A, B, C, D) := st
  let F :=
    if i < 16 then (B &&& C) ||| (not32 B &&& D)
    else if i < 32 then (D &&& B) ||| (not32 D &&& C)
    else if i < 48 then Nat.xor (Nat.xor B C) D
    else Nat.xor C (B ||| not32 D)
  let g :=
    if i < 16 then i
    else if i < 32 then (5 * i + 1) % 16
    else if i < 48 then (3 * i + 5) % 16
    else (7 * i) % 16
  let F2 := (F + A + md5K.getD i 0 + M.getD g 0) % mask32
  (D, (B + rotl32 F2 (md5S.getD i 0)) % mask32, B, C)

/-- Process one 64-byte block, updating the running digest state. -/
def md5Block (st : Nat × Nat × Nat × Nat) (block : List Nat) :
    Nat × Nat × Nat × Nat :=
  let M := toWords block
  let (a0, b0, c0, d0) := st
  let (A, B, C, D) := (List.range 64).foldl (md5Step M) (a0, b0, c0, d0)
  ((a0 + A) % mask32, (b0 + B) % mask32, (c0 + C) % mask32, (d0 + D) % mask32)

/-- MD5 digest of a byte list, as the 16 digest bytes. -/
def md5Bytes (msg : List Nat) : List Nat :=
  let blocks := chunks64 (md5Pad msg)
  let (a, b, c, d) :=
    blocks.foldl md5Block (1732584193, 4023233417, 2562383102, 271733878)
  leBytes 4 a ++ leBytes 4 b ++ leBytes 4 c ++ leBytes 4 d

/-- Lowercase hex digit. -/
def hexDigit (n : Nat) : Char :=
  if n < 10 then Char.ofNat (48 + n) else Char.ofNat (87 + n)

/-- Lowercase hex characters of a byte list (hashlib hexdigest). -/
def hexChars (bs : List Nat) : List Char :=
  bs.foldr (fun b acc => hexDigit (b / 16) :: hexDigit (b % 16) :: acc) []

/-- ASCII bytes of a character list. -/
def strBytes (s : List Char) : List Nat := s.map Char.toNat

/-- Decimal digit characters of a Nat (fuel-driven structural recursion). -/
def decDigitsAux : Nat → Nat → List Char
  | 0, _ => []
  | fuel + 1, n =>
      if n < 10 then [Char.ofNat (48 + n)]
      else decDigitsAux fuel (n / 10) ++ [Char.ofNat (48 + n % 10)]

/-- `str(user_id)` for a Python int: decimal representation, minus sign if
negative. -/
def intStr (i : Int) : List Char :=
  if i < 0 then Char.ofNat 45 :: decDigitsAux (i.natAbs + 1) i.natAbs
  else decDigitsAux (i.natAbs + 1) i.natAbs

/-- Referral-code derivation of get_or_create_user (src/database.py line 89):
`hashlib.md5(str(user_id).encode()).hexdigest()[:8].upper()`. -/
def refCode (user_id : Int) : String :=
  String.mk (((hexChars (md5Bytes (strBytes (intStr user_id)))).take 8).map Char.toUpper)

/-! ### Data model (schema of init_db, src/database.py lines 24-78)

`joined_at` / `created_at` columns (DEFAULT CURRENT_TIMESTAMP) and the
`bonus_used` column of daily_energy are never read or written by any modelled
operation and are omitted. -/

structure UserRow where
  user_id : Int
  username : Option String
  first_name : Option String
  is_premium : Bool
  premium_until : Option Int
  total_scans : Int
  referral_code : String
  referred_by : Option Int
  bonus_scans : Int
  deriving Repr, DecidableEq

structure DailyRow where
  user_id : Int
  date : String
  scans_used : Int
  deriving Repr, DecidableEq

structure ScanRow where
  user_id : Int
  token : Option String
  ticker : Option String
  trend : Option String
  action : Option String
  confidence : Option Int
  risk_level : Option String
  verdict : Option String
  image_file_id : Option String
  deriving Repr, DecidableEq

structure ReferralRow where
  referrer_id : Int
  referred_id : Int
  bonus_awarded : Int
  deriving Repr, DecidableEq

structure TransactionRow where
  user_id : Int
  kind : String
  amount : Int
  stars_paid : Int
  deriving Repr, DecidableEq

structure DB where
  users : List UserRow
  daily_energy : List DailyRow
  scans : List ScanRow
  referrals : List ReferralRow
  transactions : List TransactionRow
  deriving Repr, DecidableEq

def emptyDB : DB := ⟨[], [], [], [], []⟩

/-! ### Row lookup and update helpers (SELECT / UPDATE building blocks) -/

def findUser (db : DB) (uid : Int) : Option UserRow :=
  db.users.find? (fun u => u.user_id == uid)

def findDaily (db : DB) (uid : Int) (day : String) : Option DailyRow :=
  db.daily_energy.find? (fun d => d.user_id == uid && d.date == day)

/-- UPDATE users SET ... WHERE user_id = uid. -/
def updateUser (db : DB) (uid : Int) (f : UserRow → UserRow) : DB :=
  { db with users := db.users.map (fun u => if u.user_id == uid then f u else u) }

/-- Observed bonus_scans of a user (0 if absent). -/
def bonusOf (db : DB) (uid : Int) : Int :=
  ((findUser db uid).map (fun u => u.bonus_scans)).getD 0

/-- Observed total_scans of a user (0 if absent). -/
def lifetimeOf (db : DB) (uid : Int) : Int :=
  ((findUser db uid).map (fun u => u.total_scans)).getD 0

/-- Observed scans_used of a (user, day) row (0 if absent). -/
def dailyUsed (db : DB) (uid : Int) (day : String) : Int :=
  ((findDaily db uid day).map (fun d => d.scans_used)).getD 0

/-- Number of scan records of a user. -/
def scanCount (db : DB) (uid : Int) : Nat :=
  (db.scans.filter (fun s => s.user_id == uid)).length

/-! ### get_or_create_user (src/database.py lines 83-98)

The source computes `ref_code` from the md5 of the decimal user id and
INSERTs it into a column declared TEXT UNIQUE; it performs no collision
check, so if an existing row already holds the derived code the INSERT
raises sqlite3.IntegrityError, modelled as Except.error. -/

/-- The freshly inserted row: zeroed defaults and the derived referral code. -/
def newUserRow (uid : Int) (username first_name : Option String) : UserRow :=
  { user_id := uid, username := username, first_name := first_name,
    is_premium := false, premium_until := none, total_scans := 0,
    referral_code := refCode uid, referred_by := none, bonus_scans := 0 }

def getOrCreateUser (db : DB) (uid : Int) (username first_name : Option String) :
    Except String (UserRow × DB) :=
  match findUser db uid with
  | some u => .ok (u, db)
  | none =>
    if db.users.any (fun u => u.referral_code == refCode uid) then
      .error "IntegrityError: UNIQUE constraint failed: users.referral_code"
    else
      .ok (newUserRow uid username first_name,
        { db with users := db.users ++ [newUserRow uid username first_name] })

/-! ### get_energy_status (src/database.py lines 101-135) -/

structure EnergyStatus where
  user_id : Int
  is_premium : Bool
  scans_used_today : Int
  free_remaining : Int
  bonus_scans : Int
  total_remaining : Int
  total_scans_ever : Int
  deriving Repr, DecidableEq

/-- The premium test of get_energy_status (lines 114-117):
`is_premium and (not premium_until or fromisoformat(premium_until) > utcnow())`. -/
def premiumActive (now : Int) (u : UserRow) : Bool :=
  u.is_premium && (match u.premium_until with
                   | none => true
                   | some t => now < t)

/-- `dict(...fetchone())` on a missing users row raises in Python; modelled
as Except.error. -/
def getEnergyStatus (now : Int) (today : String) (db : DB) (uid : Int) :
    Except String EnergyStatus :=
  match findUser db uid with
  | none => .error "TypeError: users row is None"
  | some u =>
    let scansUsedToday := dailyUsed db uid today
    let isPrem := premiumActive now u
    let remaining :=
      if isPrem then 999
      else max 0 (FREE_DAILY_SCANS - scansUsedToday) + u.bonus_scans
    .ok { user_id := uid,
          is_premium := isPrem,
          scans_used_today := scansUsedToday,
          free_remaining :=
            if isPrem then 999 else max 0 (FREE_DAILY_SCANS - scansUsedToday),
          bonus_scans := u.bonus_scans,
          total_remaining := remaining,
          total_scans_ever := u.total_scans }

/-! ### use_scan (src/database.py lines 138-167)

The source calls get_energy_status — which opens and closes its own
connection — and then opens a SECOND connection for the debit; the
remaining-units check is not repeated inside the debit connection.  The
debit is factored out below exactly at that connection boundary so that
the interleaving admitted by the two separate units of work can be stated. -/

/-- INSERT ... ON CONFLICT(user_id, date) DO UPDATE SET scans_used = scans_used + 1. -/
def bumpDaily (db : DB) (uid : Int) (day : String) : DB :=
  if (findDaily db uid day).isSome then
    { db with daily_energy :=
        db.daily_energy.map (fun d =>
          if d.user_id == uid && d.date == day then
            { d with scans_used := d.scans_used + 1 }
          else d) }
  else
    { db with daily_energy := db.daily_energy ++ [⟨uid, day, 1⟩] }

/-- UPDATE users SET bonus_scans = MAX(0, bonus_scans - 1). -/
def decBonus (db : DB) (uid : Int) : DB :=
  updateUser db uid (fun u => { u with bonus_scans := max 0 (u.bonus_scans - 1) })

/-- UPDATE users SET total_scans = total_scans + 1. -/
def bumpTotal (db : DB) (uid : Int) : DB :=
  updateUser db uid (fun u => { u with total_scans := u.total_scans + 1 })

/-- The second-connection transaction of use_scan (lines 144-166): branches
on the energy snapshot taken earlier, with no re-check of remaining units. -/
def useScanDebit (today : String) (db : DB) (uid : Int) (e : EnergyStatus) : DB :=
  let db1 := if e.free_remaining > 0 then bumpDaily db uid today else decBonus db uid
  bumpTotal db1 uid

def useScan (now : Int) (today : String) (db : DB) (uid : Int) :
    Except String (Bool × DB) :=
  match getEnergyStatus now today db uid with
  | .error e => .error e
  | .ok e =>
    if e.total_remaining ≤ 0 then .ok (false, db)
    else .ok (true, useScanDebit today db uid e)

/-- Two concurrent use_scan calls for the same user, interleaved at the
connection boundary the source exposes: both read their energy snapshot
before either debit connection commits.  Returns the two results and the
final state. -/
def useScanRace (now : Int) (today : String) (db : DB) (uid : Int) :
    Except String (Bool × Bool × DB) :=
  match getEnergyStatus now today db uid with
  | .error e => .error e
  | .ok e1 =>
    match getEnergyStatus now today db uid with
    | .error e => .error e
    | .ok e2 =>
      if e1.total_remaining ≤ 0 then
        if e2.total_remaining ≤ 0 then .ok (false, false, db)
        else .ok (false, true, useScanDebit today db uid e2)
      else
        let db1 := useScanDebit today db uid e1
        if e2.total_remaining ≤ 0 then .ok (true, false, db1)
        else .ok (true, true, useScanDebit today db1 uid e2)

/-! ### add_bonus_scans, set_premium, save_scan (src/database.py lines 170-220) -/

def addBonusScans (db : DB) (uid : Int) (amount stars_paid : Int) : DB :=
  let db1 := updateUser db uid (fun u => { u with bonus_scans := u.bonus_scans + amount })
  { db1 with transactions :=
      db1.transactions ++ [⟨uid, "scan_refill", amount, stars_paid⟩] }

/-- set_premium: `until = utcnow() + timedelta(days=30 * months)`; the stored
premium_until is overwritten unconditionally.  30 days = 2592000 seconds. -/
def setPremium (now : Int) (db : DB) (uid : Int) (months stars_paid : Int) : DB :=
  let untilTs := now + 2592000 * months
  let db1 := updateUser db uid
    (fun u => { u with is_premium := true, premium_until := some untilTs })
  { db1 with transactions :=
      db1.transactions ++ [⟨uid, "premium", months, stars_paid⟩] }

/-- The structured analysis payload saved by save_scan; `success` and `error`
are the analyze_chart result fields consumed by the bot handler. -/
structure Analysis where
  success : Bool
  token : Option String := none
  ticker : Option String := none
  trend : Option String := none
  action : Option String := none
  confidence : Option Int := none
  risk_level : Option String := none
  verdict : Option String := none
  deriving Repr, DecidableEq

def saveScan (db : DB) (uid : Int) (an : Analysis) (image_file_id : Option String) : DB :=
  { db with scans := db.scans ++
      [{ user_id := uid, token := an.token, ticker := an.ticker,
         trend := an.trend, action := an.action, confidence := an.confidence,
         risk_level := an.risk_level, verdict := an.verdict,
         image_file_id := image_file_id }] }

/-! ### process_referral (src/database.py lines 235-268) -/

def processReferral (db : DB) (referrer_code : String) (new_user_id : Int) :
    Bool × DB :=
  match db.users.find? (fun u => u.referral_code == referrer_code) with
  | none => (false, db)
  | some r =>
    if r.user_id == new_user_id then (false, db)
    else if (db.referrals.find? (fun x => x.referred_id == new_user_id)).isSome then
      (false, db)
    else
      let db1 := { db with referrals :=
        db.referrals ++ [⟨r.user_id, new_user_id, REFERRAL_BONUS_SCANS⟩] }
      let db2 := updateUser db1 new_user_id
        (fun u => { u with referred_by := some r.user_id,
                           bonus_scans := u.bonus_scans + 3 })
      let db3 := updateUser db2 r.user_id
        (fun u => { u with bonus_scans := u.bonus_scans + REFERRAL_BONUS_SCANS })
      (true, db3)

/-! ### handle_photo (src/bot.py lines 249-375)

Per-event worker processing for one photo.  External effects (replies,
download, analysis, enrichment) enter as parameters:
* `an` is the analyze_chart result (its `success` field drives the branch);
* `midRaise` models an exception raised by the awaited edit_text /
  enrichment calls that sit BETWEEN `use_scan` and `save_scan` in the
  source; the outer try/except catches it, so `save_scan` is skipped while
  the already-committed debit stands.
The boolean returned by use_scan is discarded, as in the source. -/

inductive PhotoResult where
  | exhausted
  | analysisFailed
  | midRaised
  | completed
  deriving Repr, DecidableEq

def handlePhoto (now : Int) (today : String) (db : DB) (uid : Int)
    (username first_name : Option String) (an : Analysis)
    (fileId : Option String) (midRaise : Bool) :
    Except String (PhotoResult × DB) :=
  match getOrCreateUser db uid username first_name with
  | .error e => .error e
  | .ok (_, db1) =>
    match getEnergyStatus now today db1 uid with
    | .error e => .error e
    | .ok e =>
      if e.total_remaining ≤ 0 then .ok (.exhausted, db1)
      else if an.success then
        match useScan now today db1 uid with
        | .error msg => .error msg
        | .ok (_, db2) =>
          if midRaise then .ok (.midRaised, db2)
          else .ok (.completed, saveScan db2 uid an fileId)
      else .ok (.analysisFailed, db1)

/-! ### telegram_webhook (src/web_server.py lines 179-199)

The handler first runs the lazy initializer outside any try block; an
exception there (for example `future.result(timeout=30)` timing out in
the initializer, lines 104-105) escapes the handler.  After that it
returns 503 when the bridge globals are still unset, and 200 in every
branch of the try/except around event processing — including a raised
worker exception and the 60-second bounded wait timing out, both of which
land in the generic except clause. -/

inductive ProcessResult where
  | processed
  | workerRaised
  | waitTimedOut
  deriving Repr, DecidableEq

def telegramWebhook (initRaises : Bool) (botReady : Bool) (pr : ProcessResult) :
    Except String Nat :=
  if initRaises then .error "exception from lazy initialization escapes the handler"
  else if !botReady then .ok 503
  else
    match pr with
    | .processed => .ok 200
    | .workerRaised => .ok 200
    | .waitTimedOut => .ok 200

/-! ### /api/energy/<user_id> (src/web_server.py lines 139-141)

The endpoint calls get_energy_status directly, with no get_or_create_user
beforehand. -/

def apiEnergy (now : Int) (today : String) (db : DB) (uid : Int) :
    Except String EnergyStatus :=
  getEnergyStatus now today db uid

/-! ### Helpers and concrete states for witnesses and counterexamples -/

/-- Extract an Except value with a default (concrete executions only). -/
def exceptD {α : Type} (x : Except String α) (d : α) : α :=
  match x with
  | .ok a => a
  | .error _ => d

def mkUser (uid : Int) (code : String) : UserRow :=
  { user_id := uid, username := none, first_name := none,
    is_premium := false, premium_until := none, total_scans := 0,
    referral_code := code, referred_by := none, bonus_scans := 0 }

def theDay : String := "2026-10-12"

/-- Non-premium user, 2 of 3 free units already used today, no bonus:
exactly one unit remains. -/
def raceDB : DB :=
  { emptyDB with users := [mkUser 1 "AAAAAAAA"],
                 daily_energy := [⟨1, theDay, 2⟩] }

def raceResult : Bool × Bool × DB :=
  exceptD (useScanRace 0 theDay raceDB 1) (false, false, raceDB)

def seqFirst : Bool × DB := exceptD (useScan 0 theDay raceDB 1) (false, raceDB)

def seqSecond : Bool × DB :=
  exceptD (useScan 0 theDay seqFirst.2 1) (false, seqFirst.2)

/-- Fresh user for the handle_photo mid-exception counterexample. -/
def c2DB : DB := { emptyDB with users := [mkUser 2 "BBBBBBBB"] }

def c2Analysis : Analysis := { success := true, token := some "PEPE" }

def c2Run : PhotoResult × DB :=
  exceptD (handlePhoto 0 theDay c2DB 2 none none c2Analysis (some "file1") true)
    (.exhausted, c2DB)

/-- The same event with no exception between debit and record. -/
def c2GoodRun : PhotoResult × DB :=
  exceptD (handlePhoto 0 theDay c2DB 2 none none c2Analysis (some "file1") false)
    (.exhausted, c2DB)

/-- Fresh user with bonus balance 5 and no usage today (free-before-bonus
scenario of the spec). -/
def c3DB : DB :=
  { emptyDB with users := [{ mkUser 3 "DDDDDDDD" with bonus_scans := 5 }] }

def c3Run : Bool × DB := exceptD (useScan 0 theDay c3DB 3 ) (false, c3DB)

/-- Already-active premium user (premium_until 100 days out). -/
def c6User : UserRow :=
  { mkUser 6 "EEEEEEEE" with is_premium := true, premium_until := some 8640000 }

def c6DB : DB := { emptyDB with users := [c6User] }

/-- Fresh non-premium user for the double-activation counterexample. -/
def c6bUser : UserRow := mkUser 16 "FFFFFFFF"

def c6bDB : DB := { emptyDB with users := [c6bUser] }

/-- Fresh non-premium user used to drive free usage to the allowance, then
go premium, then scan once more. -/
def c7User : UserRow := mkUser 7 "GGGGGGGG"

def c7DB0 : DB := { emptyDB with users := [c7User] }

def c7DB1 : DB := (exceptD (useScan 0 theDay c7DB0 7) (false, c7DB0)).2

def c7DB2 : DB := (exceptD (useScan 0 theDay c7DB1 7) (false, c7DB1)).2

def c7DB3 : DB := (exceptD (useScan 0 theDay c7DB2 7) (false, c7DB2)).2

def c7Attempt4 : Bool × DB := exceptD (useScan 0 theDay c7DB3 7) (true, c7DB3)

def c7DB4 : DB := setPremium 0 c7DB3 7 1 0

def c7Run5 : Bool × DB := exceptD (useScan 0 theDay c7DB4 7) (false, c7DB4)

/-- Premium user with premium_until one hour in the future and some bonus. -/
def c5User : UserRow :=
  { mkUser 5 "HHHHHHHH" with is_premium := true, premium_until := some 3600,
                              bonus_scans := 4 }

def c5DB : DB :=
  { emptyDB with users := [c5User], daily_energy := [⟨5, theDay, 3⟩] }

/-- The energy snapshot get_energy_status reports for c5DB user 5 at time 0. -/
def c5Energy : EnergyStatus := ⟨5, true, 3, 999, 4, 999, 0⟩

/-- Non-premium user with the free bucket exhausted and bonus balance 2
(bonus-branch witness for the sequential use_scan contract). -/
def c1User : UserRow := { mkUser 11 "LLLLLLLL" with bonus_scans := 2 }

def c1DB : DB :=
  { emptyDB with users := [c1User], daily_energy := [⟨11, theDay, 3⟩] }

/-- The energy snapshot get_energy_status reports for c1DB user 11 at time 0. -/
def c1Energy : EnergyStatus := ⟨11, false, 3, 0, 2, 2, 0⟩

/-- Referrer and referred accounts for the referral witness. -/
def c4DB : DB :=
  { emptyDB with users := [mkUser 40 "JJJJJJJJ", mkUser 41 "KKKKKKKK"] }

def c4Run1 : Bool × DB := processReferral c4DB "JJJJJJJJ" 41

def c4Run2 : Bool × DB := processReferral c4Run1.2 "JJJJJJJJ" 41

/-- State holding the account whose referral code collides with the one
derived for user 82945 (both md5-truncate to the same 8 characters). -/
def c8DB : DB :=
  (exceptD (getOrCreateUser emptyDB 25302 none none) (mkUser 0 "", emptyDB)).2

/-! ### List-level helper lemmas -/

theorem find?_map_pres {α : Type} (p : α → Bool) (g : α → α)
    (hp : ∀ a, p (g a) = p a) (l : List α) :
    (l.map g).find? p = (l.find? p).map g := by
  rw [List.find?_map]
  have : (p ∘ g) = p := funext hp
  rw [this]

theorem find?_map_invariant {α : Type} (q : α → Bool) (g : α → α)
    (h1 : ∀ a, q (g a) = q a) (h2 : ∀ a, q a = true → g a = a) (l : List α) :
    (l.map g).find? q = l.find? q := by
  induction l with
  | nil => rfl
  | cons a t ih =>
    by_cases h : q a = true
    · rw [List.map_cons, List.find?_cons_of_pos _ (by rw [h1]; exact h),
        List.find?_cons_of_pos _ h, h2 a h]
    · rw [List.map_cons, List.find?_cons_of_neg _ (by rw [h1]; exact h),
        List.find?_cons_of_neg _ h, ih]

theorem find?_of_mem_nodup {α β : Type} [DecidableEq β] (key : α → β) (r : α) :
    ∀ l : List α, r ∈ l → (l.map key).Nodup →
      l.find? (fun a => key a == key r) = some r := by
  intro l
  induction l with
  | nil => intro hr _; cases hr
  | cons a t ih =>
    intro hr hnd
    rcases List.mem_cons.mp hr with h | h
    · subst h; exact List.find?_cons_of_pos _ (by simp)
    · have hk : key a ≠ key r := by
        intro he
        have hm : key r ∈ t.map key := List.mem_map_of_mem key h
        rw [List.map_cons, List.nodup_cons] at hnd
        exact hnd.1 (he ▸ hm)
      rw [List.find?_cons_of_neg _ (by simp [hk])]
      exact ih h (by rw [List.map_cons, List.nodup_cons] at hnd; exact hnd.2)

/-! ### DB-level helper lemmas -/

theorem users_bumpDaily (db : DB) (uid : Int) (day : String) :
    (bumpDaily db uid day).users = db.users := by
  unfold bumpDaily; split <;> rfl

theorem scans_bumpDaily (db : DB) (uid : Int) (day : String) :
    (bumpDaily db uid day).scans = db.scans := by
  unfold bumpDaily; split <;> rfl

theorem findUser_bumpDaily (db : DB) (uid : Int) (day : String) (uid2 : Int) :
    findUser (bumpDaily db uid day) uid2 = findUser db uid2 := by
  unfold findUser; rw [users_bumpDaily]

theorem bonusOf_bumpDaily (db : DB) (uid : Int) (day : String) (uid2 : Int) :
    bonusOf (bumpDaily db uid day) uid2 = bonusOf db uid2 := by
  unfold bonusOf; rw [findUser_bumpDaily]

theorem lifetimeOf_bumpDaily (db : DB) (uid : Int) (day : String) (uid2 : Int) :
    lifetimeOf (bumpDaily db uid day) uid2 = lifetimeOf db uid2 := by
  unfold lifetimeOf; rw [findUser_bumpDaily]

theorem findUser_updateUser (db : DB) (uid : Int) (f : UserRow → UserRow)
    (hf : ∀ u, (f u).user_id = u.user_id) :
    findUser (updateUser db uid f) uid = (findUser db uid).map f := by
  unfold findUser updateUser
  have h := find?_map_pres (fun u => u.user_id == uid)
    (fun u => if u.user_id == uid then f u else u)
    (by intro u; by_cases hc : (u.user_id == uid) = true <;> simp [hc, hf]) db.users
  rw [h]
  cases hu : db.users.find? (fun u => u.user_id == uid) with
  | none => rfl
  | some u =>
    have heq : u.user_id = uid := by simpa using List.find?_some hu
    simp [heq]

theorem findUser_updateUser_ne (db : DB) (tuid uid : Int) (f : UserRow → UserRow)
    (hne : uid ≠ tuid) (hf : ∀ u, (f u).user_id = u.user_id) :
    findUser (updateUser db tuid f) uid = findUser db uid := by
  unfold findUser updateUser
  apply find?_map_invariant
  · intro u; by_cases hc : (u.user_id == tuid) = true <;> simp [hc, hf]
  · intro u hq
    have hu : u.user_id = uid := by simpa using hq
    simp [hu, hne]

theorem daily_updateUser (db : DB) (uid : Int) (f : UserRow → UserRow) :
    (updateUser db uid f).daily_energy = db.daily_energy := rfl

theorem find?_users_updateUser (db : DB) (uid : Int) (f : UserRow → UserRow)
    (p : UserRow → Bool) (hp : ∀ v, p (f v) = p v) :
    (updateUser db uid f).users.find? p =
      (db.users.find? p).map (fun v => if v.user_id == uid then f v else v) := by
  unfold updateUser
  exact find?_map_pres p _
    (by intro v; by_cases hc : (v.user_id == uid) = true <;> simp [hc, hp])
    db.users

theorem scans_updateUser (db : DB) (uid : Int) (f : UserRow → UserRow) :
    (updateUser db uid f).scans = db.scans := rfl

theorem findDaily_bumpDaily_hit (db : DB) (uid : Int) (day : String) (d : DailyRow)
    (hd : findDaily db uid day = some d) :
    findDaily (bumpDaily db uid day) uid day =
      some { d with scans_used := d.scans_used + 1 } := by
  unfold bumpDaily
  rw [if_pos (by rw [hd]; rfl)]
  show ((db.daily_energy.map _).find? _) = _
  rw [find?_map_pres (fun d => d.user_id == uid && d.date == day)
    (fun d =>
      if d.user_id == uid && d.date == day then
        { d with scans_used := d.scans_used + 1 }
      else d)
    (by intro d; by_cases hc : (d.user_id == uid && d.date == day) = true <;>
      simp [hc]) db.daily_energy]
  unfold findDaily at hd
  rw [hd]
  have hpd := List.find?_some hd
  simp only [Bool.and_eq_true, beq_iff_eq] at hpd
  simp [hpd.1, hpd.2]

theorem findDaily_bumpDaily_miss (db : DB) (uid : Int) (day : String)
    (hd : findDaily db uid day = none) :
    findDaily (bumpDaily db uid day) uid day = some ⟨uid, day, 1⟩ := by
  unfold bumpDaily
  rw [if_neg (by rw [hd]; simp)]
  show ((db.daily_energy ++ [(⟨uid, day, 1⟩ : DailyRow)]).find?
    (fun d => d.user_id == uid && d.date == day)) = _
  unfold findDaily at hd
  rw [List.find?_append, hd]
  simp [List.find?]

theorem dailyUsed_bumpDaily (db : DB) (uid : Int) (day : String) :
    dailyUsed (bumpDaily db uid day) uid day = dailyUsed db uid day + 1 := by
  unfold dailyUsed
  cases hd : findDaily db uid day with
  | none => rw [findDaily_bumpDaily_miss db uid day hd]; rfl
  | some d => rw [findDaily_bumpDaily_hit db uid day d hd]; rfl

theorem dailyUsed_updateUser (db : DB) (uid : Int) (f : UserRow → UserRow)
    (uid2 : Int) (day : String) :
    dailyUsed (updateUser db uid f) uid2 day = dailyUsed db uid2 day := rfl

theorem bonusOf_bumpTotal (db : DB) (uid uid2 : Int) :
    bonusOf (bumpTotal db uid) uid2 = bonusOf db uid2 := by
  unfold bonusOf bumpTotal
  by_cases h : uid2 = uid
  · subst h
    rw [findUser_updateUser _ _ _ (by intro u; rfl)]
    cases findUser db uid2 <;> rfl
  · rw [findUser_updateUser_ne _ _ _ _ h (by intro u; rfl)]

theorem bonusOf_decBonus (db : DB) (uid : Int) :
    bonusOf (decBonus db uid) uid = max 0 (bonusOf db uid - 1) := by
  unfold bonusOf decBonus
  rw [findUser_updateUser _ _ _ (by intro u; rfl)]
  cases findUser db uid <;> rfl

theorem lifetimeOf_decBonus (db : DB) (uid uid2 : Int) :
    lifetimeOf (decBonus db uid) uid2 = lifetimeOf db uid2 := by
  unfold lifetimeOf decBonus
  by_cases h : uid2 = uid
  · subst h
    rw [findUser_updateUser _ _ _ (by intro u; rfl)]
    cases findUser db uid2 <;> rfl
  · rw [findUser_updateUser_ne _ _ _ _ h (by intro u; rfl)]

theorem lifetimeOf_bumpTotal (db : DB) (uid : Int)
    (h : (findUser db uid).isSome) :
    lifetimeOf (bumpTotal db uid) uid = lifetimeOf db uid + 1 := by
  unfold lifetimeOf bumpTotal
  rw [findUser_updateUser _ _ _ (by intro u; rfl)]
  obtain ⟨u, hu⟩ := Option.isSome_iff_exists.mp h
  rw [hu]; rfl

theorem dailyUsed_decBonus (db : DB) (uid uid2 : Int) (day : String) :
    dailyUsed (decBonus db uid) uid2 day = dailyUsed db uid2 day := rfl

theorem dailyUsed_bumpTotal (db : DB) (uid uid2 : Int) (day : String) :
    dailyUsed (bumpTotal db uid) uid2 day = dailyUsed db uid2 day := rfl

theorem scans_bumpTotal (db : DB) (uid : Int) :
    (bumpTotal db uid).scans = db.scans := rfl

theorem scans_decBonus (db : DB) (uid : Int) :
    (decBonus db uid).scans = db.scans := rfl

/-- getEnergyStatus evaluated when the user row exists. -/
theorem getEnergyStatus_ok (now : Int) (today : String) (db : DB) (uid : Int)
    (u : UserRow) (hu : findUser db uid = some u) :
    getEnergyStatus now today db uid = .ok
      { user_id := uid,
        is_premium := premiumActive now u,
        scans_used_today := dailyUsed db uid today,
        free_remaining :=
          if premiumActive now u then 999
          else max 0 (FREE_DAILY_SCANS - dailyUsed db uid today),
        bonus_scans := u.bonus_scans,
        total_remaining :=
          if premiumActive now u then 999
          else max 0 (FREE_DAILY_SCANS - dailyUsed db uid today) + u.bonus_scans,
        total_scans_ever := u.total_scans } := by
  unfold getEnergyStatus
  rw [hu]

/-- use_scan evaluated when the energy read succeeds. -/
theorem useScan_eq (now : Int) (today : String) (db : DB) (uid : Int)
    (e : EnergyStatus) (he : getEnergyStatus now today db uid = .ok e) :
    useScan now today db uid =
      if e.total_remaining ≤ 0 then .ok (false, db)
      else .ok (true, useScanDebit today db uid e) := by
  unfold useScan
  rw [he]

theorem getEnergyStatus_isSome (now : Int) (today : String) (db : DB)
    (uid : Int) (e : EnergyStatus)
    (he : getEnergyStatus now today db uid = .ok e) :
    (findUser db uid).isSome := by
  unfold getEnergyStatus at he
  cases hu : findUser db uid with
  | none => rw [hu] at he; exact Except.noConfusion he
  | some u => rfl

theorem scans_useScanDebit (today : String) (db : DB) (uid : Int)
    (e : EnergyStatus) :
    (useScanDebit today db uid e).scans = db.scans := by
  unfold useScanDebit
  by_cases h : e.free_remaining > 0
  · rw [if_pos h, scans_bumpTotal, scans_bumpDaily]
  · rw [if_neg h, scans_bumpTotal, scans_decBonus]

theorem lifetimeOf_useScanDebit (today : String) (db : DB) (uid : Int)
    (e : EnergyStatus) (h : (findUser db uid).isSome) :
    lifetimeOf (useScanDebit today db uid e) uid = lifetimeOf db uid + 1 := by
  unfold useScanDebit
  by_cases hf : e.free_remaining > 0
  · rw [if_pos hf,
      lifetimeOf_bumpTotal _ _ (by rw [findUser_bumpDaily]; exact h),
      lifetimeOf_bumpDaily]
  · rw [if_neg hf]
    obtain ⟨u, hu⟩ := Option.isSome_iff_exists.mp h
    rw [lifetimeOf_bumpTotal _ _ (by
        unfold decBonus
        rw [findUser_updateUser _ _ _ (by intro v; rfl), hu]
        rfl),
      lifetimeOf_decBonus]

theorem scanCount_congr (db db2 : DB) (uid : Int) (h : db2.scans = db.scans) :
    scanCount db2 uid = scanCount db uid := by
  unfold scanCount
  rw [h]

theorem scanCount_saveScan (db : DB) (uid : Int) (an : Analysis)
    (fid : Option String) :
    scanCount (saveScan db uid an fid) uid = scanCount db uid + 1 := by
  unfold scanCount saveScan
  show (List.filter _ (db.scans ++ [_])).length = _
  rw [List.filter_append, List.length_append]
  simp [List.filter]

theorem lifetimeOf_saveScan (db : DB) (uid : Int) (an : Analysis)
    (fid : Option String) (uid2 : Int) :
    lifetimeOf (saveScan db uid an fid) uid2 = lifetimeOf db uid2 := rfl

/-- get_or_create_user evaluated on an existing account. -/
theorem getOrCreateUser_existing (db : DB) (uid : Int) (un fn : Option String)
    (u : UserRow) (hu : findUser db uid = some u) :
    getOrCreateUser db uid un fn = .ok (u, db) := by
  unfold getOrCreateUser
  rw [hu]

/-- get_or_create_user evaluated on a fresh account with no code collision. -/
theorem getOrCreateUser_new (db : DB) (uid : Int) (un fn : Option String)
    (hu : findUser db uid = none)
    (hc : db.users.any (fun u => u.referral_code == refCode uid) = false) :
    getOrCreateUser db uid un fn =
      .ok (newUserRow uid un fn,
        { db with users := db.users ++ [newUserRow uid un fn] }) := by
  unfold getOrCreateUser
  rw [hu]
  rw [if_neg (by rw [hc]; exact Bool.false_ne_true)]

/-- get_or_create_user evaluated on a fresh account whose derived code is
already taken: the INSERT violates the UNIQUE constraint. -/
theorem getOrCreateUser_collision_eq (db : DB) (uid : Int) (un fn : Option String)
    (hu : findUser db uid = none)
    (hc : db.users.any (fun u => u.referral_code == refCode uid) = true) :
    getOrCreateUser db uid un fn =
      .error "IntegrityError: UNIQUE constraint failed: users.referral_code" := by
  unfold getOrCreateUser
  rw [hu]
  rw [if_pos hc]

/-- Ledger observations preserved or established by get_or_create_user. -/
theorem getOrCreateUser_ok (db : DB) (uid : Int) (un fn : Option String)
    (u0 : UserRow) (db1 : DB)
    (hg : getOrCreateUser db uid un fn = .ok (u0, db1)) :
    db1.daily_energy = db.daily_energy ∧ db1.scans = db.scans ∧
    bonusOf db1 uid = bonusOf db uid ∧ lifetimeOf db1 uid = lifetimeOf db uid ∧
    findUser db1 uid = some u0 := by
  cases hu : findUser db uid with
  | some u =>
    rw [getOrCreateUser_existing db uid un fn u hu] at hg
    injection hg with hg
    injection hg with h1 h2
    subst h2
    exact ⟨rfl, rfl, rfl, rfl, h1 ▸ hu⟩
  | none =>
    cases hc : db.users.any (fun v => v.referral_code == refCode uid) with
    | true =>
      rw [getOrCreateUser_collision_eq db uid un fn hu hc] at hg
      exact Except.noConfusion hg
    | false =>
      rw [getOrCreateUser_new db uid un fn hu hc] at hg
      injection hg with hg
      injection hg with h1 h2
      subst h2
      have hfind : findUser { db with users := db.users ++ [newUserRow uid un fn] }
          uid = some (newUserRow uid un fn) := by
        unfold findUser at hu ⊢
        show (db.users ++ [newUserRow uid un fn]).find? _ = _
        rw [List.find?_append, hu]
        simp [List.find?, newUserRow]
      refine ⟨rfl, rfl, ?_, ?_, h1 ▸ hfind⟩
      · unfold bonusOf
        rw [hfind, hu]
        rfl
      · unfold lifetimeOf
        rw [hfind, hu]
        rfl

/-! ### Claim theorems -/

/-- Claim C3: consumption always debits the free bucket first and the bonus
bucket only when free is exhausted.  Whenever the energy snapshot reports
free_remaining > 0, use_scan leaves bonus_scans unchanged; and in the concrete
spec scenario (free_units_used_today = 0, daily allowance 3, bonus_balance 5)
one successful consumption yields scans_used = 1 with the bonus balance still
5. -/
theorem useScan_free_before_bonus :
    (∀ (now : Int) (today : String) (db : DB) (uid : Int) (e : EnergyStatus),
      getEnergyStatus now today db uid = .ok e →
      0 < e.free_remaining →
      ∃ b db2, useScan now today db uid = .ok (b, db2) ∧
        bonusOf db2 uid = bonusOf db uid) ∧
    c3Run.1 = true ∧ dailyUsed c3Run.2 3 theDay = 1 ∧ bonusOf c3Run.2 3 = 5 ∧
    FREE_DAILY_SCANS = 3 ∧ bonusOf c3DB 3 = 5 ∧ dailyUsed c3DB 3 theDay = 0 := by
  refine ⟨?_, by decide, by decide, by decide, by decide, by decide, by decide⟩
  intro now today db uid e he hfree
  rw [useScan_eq now today db uid e he]
  by_cases h : e.total_remaining ≤ 0
  · rw [if_pos h]
    exact ⟨false, db, rfl, rfl⟩
  · rw [if_neg h]
    refine ⟨true, useScanDebit today db uid e, rfl, ?_⟩
    unfold useScanDebit
    rw [if_pos hfree, bonusOf_bumpTotal, bonusOf_bumpDaily]

/-- Claim C5: the reported premium flag is true exactly when is_premium is set
and premium_until is unset or strictly later than now; active premium reports
remaining units as the sentinel 999, and any consumption for such a user
succeeds without touching the bonus balance. -/
theorem premium_semantics (now : Int) (today : String) (db : DB) (uid : Int)
    (u : UserRow) (e : EnergyStatus)
    (hu : findUser db uid = some u)
    (he : getEnergyStatus now today db uid = .ok e) :
    (e.is_premium = true ↔
      u.is_premium = true ∧
        (u.premium_until = none ∨ ∃ t, u.premium_until = some t ∧ now < t)) ∧
    (e.is_premium = true → e.total_remaining = 999 ∧ e.free_remaining = 999) ∧
    (e.is_premium = true →
      ∀ b db2, useScan now today db uid = .ok (b, db2) →
        b = true ∧ bonusOf db2 uid = bonusOf db uid) := by
  rw [getEnergyStatus_ok now today db uid u hu] at he
  injection he with he
  subst he
  refine ⟨?_, ?_, ?_⟩
  · show premiumActive now u = true ↔ _
    unfold premiumActive
    cases hpu : u.premium_until with
    | none => simp
    | some t => simp [decide_eq_true_eq]
  · intro hp
    have hp2 : premiumActive now u = true := hp
    constructor
    · show (if premiumActive now u then (999 : Int)
        else max 0 (FREE_DAILY_SCANS - dailyUsed db uid today) + u.bonus_scans) = 999
      rw [if_pos hp2]
    · show (if premiumActive now u then (999 : Int)
        else max 0 (FREE_DAILY_SCANS - dailyUsed db uid today)) = 999
      rw [if_pos hp2]
  · intro hp b db2 hs
    have hp2 : premiumActive now u = true := hp
    rw [useScan_eq now today db uid _ (getEnergyStatus_ok now today db uid u hu)]
      at hs
    rw [if_neg (show ¬((if premiumActive now u then (999 : Int)
        else max 0 (FREE_DAILY_SCANS - dailyUsed db uid today)
          + u.bonus_scans) ≤ 0) by rw [if_pos hp2]; norm_num)] at hs
    injection hs with hs
    injection hs with hb hdb
    refine ⟨hb.symm, ?_⟩
    rw [← hdb]
    unfold useScanDebit
    rw [if_pos (show (if premiumActive now u then (999 : Int)
        else max 0 (FREE_DAILY_SCANS - dailyUsed db uid today)) > 0
        by rw [if_pos hp2]; norm_num)]
    rw [bonusOf_bumpTotal, bonusOf_bumpDaily]

/-- Witness for the premium-semantics theorem: a premium user one hour before
expiry, three free units used, bonus 4 — the snapshot reports 999 remaining
and a consumption leaves the bonus balance at 4. -/
theorem premium_semantics_witness :
    (c5Energy.is_premium = true ↔
      c5User.is_premium = true ∧
        (c5User.premium_until = none ∨
          ∃ t, c5User.premium_until = some t ∧ (0 : Int) < t)) ∧
    (c5Energy.is_premium = true →
      c5Energy.total_remaining = 999 ∧ c5Energy.free_remaining = 999) ∧
    (c5Energy.is_premium = true →
      ∀ b db2, useScan 0 theDay c5DB 5 = .ok (b, db2) →
        b = true ∧ bonusOf db2 5 = bonusOf c5DB 5) :=
  premium_semantics 0 theDay c5DB 5 c5User c5Energy rfl rfl

/-- Claim C6 counterexample: set_premium does NOT extend from
max(now, current premium_until).  For a user already premium until second
8640000 (100 days out), activating one month of premium at time 0 stores
premium_until = 2592000, SHORTENING the entitlement; and two consecutive
activations at time 0 leave premium_until = 2592000, not the accumulated
5184000. -/
theorem setPremium_overwrite_cex :
    ((findUser (setPremium 0 c6DB 6 1 0) 6).map (fun u => u.premium_until)).getD
        none = some 2592000 ∧
    (2592000 : Int) < 8640000 ∧
    ((findUser c6DB 6).map (fun u => u.premium_until)).getD none = some 8640000 ∧
    ((findUser (setPremium 0 (setPremium 0 c6bDB 16 1 0) 16 1 0) 16).map
        (fun u => u.premium_until)).getD none = some 2592000 ∧
    (2592000 : Int) ≠ 5184000 := by decide

/-- Claim C6 amended: set_premium unconditionally overwrites the premium
entitlement, setting is_premium and premium_until := now + 30·months days
(2592000·months seconds) regardless of any current entitlement, and appends a
premium Transaction; consecutive activations therefore do not accumulate. -/
theorem setPremium_sets_from_now (now : Int) (db : DB) (uid : Int)
    (months stars : Int) (u : UserRow) (hu : findUser db uid = some u) :
    findUser (setPremium now db uid months stars) uid =
      some { u with is_premium := true,
                    premium_until := some (now + 2592000 * months) } ∧
    (setPremium now db uid months stars).transactions =
      db.transactions ++ [⟨uid, "premium", months, stars⟩] := by
  unfold setPremium
  constructor
  · show findUser (updateUser db uid _) uid = _
    rw [findUser_updateUser _ _ _ (by intro v; rfl), hu]
    rfl
  · rfl

/-- Witness for the overwrite semantics of set_premium at a concrete account. -/
theorem setPremium_sets_from_now_witness :
    findUser (setPremium 0 c6bDB 16 1 0) 16 =
      some { c6bUser with is_premium := true,
                          premium_until := some (0 + 2592000 * 1) } ∧
    (setPremium 0 c6bDB 16 1 0).transactions =
      c6bDB.transactions ++ [⟨16, "premium", 1, 0⟩] :=
  setPremium_sets_from_now 0 c6bDB 16 1 0 c6bUser rfl

/-- Claim C9 counterexample: when the lazy initializer itself raises (for
example its bounded 30-second wait on startup times out), the exception
escapes the webhook handler — the response is neither 200 nor 503, refuting
the claim that every inbound request is answered 200 or (not-ready) 503. -/
theorem telegramWebhook_init_exception_cex :
    telegramWebhook true true .processed =
      .error "exception from lazy initialization escapes the handler" ∧
    telegramWebhook true true .processed ≠ .ok 200 ∧
    telegramWebhook true true .processed ≠ .ok 503 := by
  refine ⟨rfl, ?_, ?_⟩ <;> intro h <;> exact Except.noConfusion h

/-- Claim C9 amended: provided the lazy initializer returns without raising,
the webhook endpoint answers 503 when the bridge globals are unset and 200 in
every other outcome, including a worker exception during processing and the
bounded 60-second wait timing out. -/
theorem telegramWebhook_status_post_init :
    ∀ (ready : Bool) (pr : ProcessResult),
      telegramWebhook false ready pr = .ok (if ready then 200 else 503) := by
  intro ready pr
  cases ready <;> cases pr <;> rfl

/-- Claim C10: get_energy_status has the unstated precondition that the
account row exists — for a user_id with no account it raises (dict of a
missing row) — and the /api/energy endpoint calls it directly, with no
account creation, so the endpoint errors for unknown users. -/
theorem apiEnergy_unknown_user (now : Int) (today : String) (db : DB)
    (uid : Int) (h : findUser db uid = none) :
    apiEnergy now today db uid = .error "TypeError: users row is None" ∧
    getEnergyStatus now today db uid = .error "TypeError: users row is None" := by
  have hg : getEnergyStatus now today db uid = .error "TypeError: users row is None" := by
    unfold getEnergyStatus
    rw [h]
  exact ⟨hg, hg⟩

/-- Witness: the energy endpoint errors on an unknown user of the empty
database. -/
theorem apiEnergy_unknown_user_witness :
    apiEnergy 0 theDay emptyDB 1 = .error "TypeError: users row is None" ∧
    getEnergyStatus 0 theDay emptyDB 1 = .error "TypeError: users row is None" :=
  apiEnergy_unknown_user 0 theDay emptyDB 1 rfl

/-- Claim C1 counterexample: the remaining-units check is NOT re-performed
inside the same atomic unit of work as the debit.  use_scan reads its energy
snapshot on one connection and debits on a second; interleaving two calls for
a user with exactly one remaining unit (2 of 3 free units used, no bonus) at
that connection boundary makes BOTH calls succeed and drives the day counter
to 4 — whereas running the two calls back to back makes the second fail, so
an atomic re-check would have stopped the second debit. -/
theorem useScan_race_double_debit :
    dailyUsed raceDB 1 theDay = 2 ∧ bonusOf raceDB 1 = 0 ∧
    FREE_DAILY_SCANS = 3 ∧
    raceResult.1 = true ∧ raceResult.2.1 = true ∧
    dailyUsed raceResult.2.2 1 theDay = 4 ∧
    seqFirst.1 = true ∧ seqSecond.1 = false := by decide

/-- Claim C1 amended: as a sequential operation, use_scan fails exactly when
the energy snapshot shows no remaining units (returning false and leaving the
state unchanged); on success it commits exactly one debit — incrementing the
day row when free units remain, else decrementing the bonus balance — and
increments total_scans; but the remaining-units check happens on a separate
connection before the debit and is not re-checked inside the debit unit of
work. -/
theorem useScan_sequential_spec (now : Int) (today : String) (db : DB)
    (uid : Int) (u : UserRow) (e : EnergyStatus)
    (hu : findUser db uid = some u)
    (he : getEnergyStatus now today db uid = .ok e) :
    (e.total_remaining ≤ 0 → useScan now today db uid = .ok (false, db)) ∧
    (0 < e.total_remaining →
      ∃ db2, useScan now today db uid = .ok (true, db2) ∧
        lifetimeOf db2 uid = lifetimeOf db uid + 1 ∧
        (0 < e.free_remaining →
          dailyUsed db2 uid today = dailyUsed db uid today + 1 ∧
          bonusOf db2 uid = bonusOf db uid) ∧
        (e.free_remaining ≤ 0 →
          bonusOf db2 uid = bonusOf db uid - 1 ∧
          dailyUsed db2 uid today = dailyUsed db uid today)) := by
  have hee := he
  rw [getEnergyStatus_ok now today db uid u hu] at hee
  injection hee with hee
  have hfr : e.free_remaining =
      if premiumActive now u then 999
      else max 0 (FREE_DAILY_SCANS - dailyUsed db uid today) := by
    rw [← hee]
  have htr : e.total_remaining =
      if premiumActive now u then 999
      else max 0 (FREE_DAILY_SCANS - dailyUsed db uid today) + u.bonus_scans := by
    rw [← hee]
  constructor
  · intro h
    rw [useScan_eq now today db uid e he, if_pos h]
  · intro h
    rw [useScan_eq now today db uid e he, if_neg (not_le.mpr h)]
    refine ⟨useScanDebit today db uid e, rfl,
      lifetimeOf_useScanDebit today db uid e (by rw [hu]; rfl), ?_, ?_⟩
    · intro hf
      unfold useScanDebit
      rw [if_pos hf, dailyUsed_bumpTotal, dailyUsed_bumpDaily,
        bonusOf_bumpTotal, bonusOf_bumpDaily]
      exact ⟨rfl, rfl⟩
    · intro hf0
      unfold useScanDebit
      rw [if_neg (not_lt.mpr hf0)]
      have hnp : premiumActive now u = false := by
        cases hp : premiumActive now u with
        | false => rfl
        | true =>
          rw [hfr, if_pos hp] at hf0
          norm_num at hf0
      rw [hfr, if_neg (by rw [hnp]; exact Bool.false_ne_true)] at hf0
      rw [htr, if_neg (by rw [hnp]; exact Bool.false_ne_true)] at h
      have hmax : max 0 (FREE_DAILY_SCANS - dailyUsed db uid today) = 0 :=
        le_antisymm hf0 (le_max_left _ _)
      rw [hmax, zero_add] at h
      have hbd : bonusOf db uid = u.bonus_scans := by
        unfold bonusOf
        rw [hu]
        rfl
      rw [dailyUsed_bumpTotal, dailyUsed_decBonus,
        bonusOf_bumpTotal, bonusOf_decBonus, hbd]
      exact ⟨max_eq_right (by omega), rfl⟩

/-- Witness for the sequential use_scan contract: a non-premium account with
the free bucket exhausted (3 of 3 used) and bonus 2 — consumption succeeds
through the bonus branch, leaving bonus 1 and total_scans incremented. -/
theorem useScan_sequential_spec_witness :
    ∃ db2, useScan 0 theDay c1DB 11 = .ok (true, db2) ∧
      lifetimeOf db2 11 = lifetimeOf c1DB 11 + 1 ∧
      (0 < c1Energy.free_remaining →
        dailyUsed db2 11 theDay = dailyUsed c1DB 11 theDay + 1 ∧
        bonusOf db2 11 = bonusOf c1DB 11) ∧
      (c1Energy.free_remaining ≤ 0 →
        bonusOf db2 11 = bonusOf c1DB 11 - 1 ∧
        dailyUsed db2 11 theDay = dailyUsed c1DB 11 theDay) :=
  (useScan_sequential_spec 0 theDay c1DB 11 c1User c1Energy rfl rfl).2
    (by decide)

/-- Claim C2 counterexample: the quota debit and the ScanRecord insertion are
NOT in one atomic unit of work, and a ScanRecord does not exist for every
committed debit.  If the awaited message edit / enrichment between use_scan
and save_scan raises, the outer handler catches the exception and skips
save_scan: the run below commits the debit (day counter 0 to 1, total_scans 0
to 1) yet inserts no ScanRecord. -/
theorem handlePhoto_debit_without_record :
    c2Run.1 = .midRaised ∧
    scanCount c2Run.2 2 = 0 ∧
    dailyUsed c2Run.2 2 theDay = 1 ∧
    lifetimeOf c2Run.2 2 = 1 ∧
    scanCount c2DB 2 = 0 ∧ dailyUsed c2DB 2 theDay = 0 ∧
    lifetimeOf c2DB 2 = 0 := by decide

/-- Claim C2 amended: in the worker's photo path, when the analysis reports
failure no DailyUsage, bonus or ScanRecord change occurs; when it reports
success and no exception intervenes, exactly one ScanRecord is inserted and
exactly one debit committed in the same handler pass — but in two separate
units of work, so an exception between them (midRaised) leaves a committed
debit with no ScanRecord. -/
theorem handlePhoto_ledger_effects (now : Int) (today : String) (db : DB)
    (uid : Int) (un fn : Option String) (an : Analysis) (fid : Option String)
    (midRaise : Bool) (r : PhotoResult) (db2 : DB)
    (h : handlePhoto now today db uid un fn an fid midRaise = .ok (r, db2)) :
    (an.success = false → r = .exhausted ∨ r = .analysisFailed) ∧
    ((r = .exhausted ∨ r = .analysisFailed) →
      db2.daily_energy = db.daily_energy ∧ bonusOf db2 uid = bonusOf db uid ∧
      db2.scans = db.scans) ∧
    (r = .completed →
      midRaise = false ∧
      scanCount db2 uid = scanCount db uid + 1 ∧
      lifetimeOf db2 uid = lifetimeOf db uid + 1) ∧
    (r = .midRaised →
      db2.scans = db.scans ∧ lifetimeOf db2 uid = lifetimeOf db uid + 1) := by
  unfold handlePhoto at h
  split at h
  · exact Except.noConfusion h
  · rename_i u0 db1 heqg
    obtain ⟨hd1, hs1, hb1, hl1, hf1⟩ := getOrCreateUser_ok db uid un fn u0 db1 heqg
    split at h
    · exact Except.noConfusion h
    · rename_i e heqe
      split at h
      · injection h with h
        injection h with hr hdb
        subst hr hdb
        exact ⟨fun _ => Or.inl rfl,
          fun _ => ⟨hd1, hb1, hs1⟩,
          fun hc => PhotoResult.noConfusion hc,
          fun hc => PhotoResult.noConfusion hc⟩
      · rename_i hnotz
        split at h
        · rename_i hsucc
          split at h
          · exact Except.noConfusion h
          · rename_i b2 db2aux heqs
            rw [useScan_eq now today db1 uid e heqe, if_neg hnotz] at heqs
            injection heqs with heqs
            injection heqs with hb2 hdbaux
            subst hdbaux
            have hscans : (useScanDebit today db1 uid e).scans = db.scans := by
              rw [scans_useScanDebit, hs1]
            have hlife : lifetimeOf (useScanDebit today db1 uid e) uid =
                lifetimeOf db uid + 1 := by
              rw [lifetimeOf_useScanDebit today db1 uid e
                (by rw [hf1]; rfl), hl1]
            split at h
            · injection h with h
              injection h with hr hdb
              subst hr hdb
              refine ⟨fun hc => absurd hsucc (by rw [hc]; exact Bool.false_ne_true),
                fun hc => ?_,
                fun hc => PhotoResult.noConfusion hc,
                fun _ => ⟨hscans, hlife⟩⟩
              cases hc with
              | inl hc => exact PhotoResult.noConfusion hc
              | inr hc => exact PhotoResult.noConfusion hc
            · rename_i hmid
              injection h with h
              injection h with hr hdb
              subst hr hdb
              refine ⟨fun hc => absurd hsucc (by rw [hc]; exact Bool.false_ne_true),
                fun hc => ?_,
                fun _ => ⟨Bool.eq_false_iff.mpr hmid,
                  by rw [scanCount_saveScan, scanCount_congr _ _ uid hscans],
                  by rw [lifetimeOf_saveScan, hlife]⟩,
                fun hc => PhotoResult.noConfusion hc⟩
              cases hc with
              | inl hc => exact PhotoResult.noConfusion hc
              | inr hc => exact PhotoResult.noConfusion hc
        · injection h with h
          injection h with hr hdb
          subst hr hdb
          exact ⟨fun _ => Or.inr rfl,
            fun _ => ⟨hd1, hb1, hs1⟩,
            fun hc => PhotoResult.noConfusion hc,
            fun hc => PhotoResult.noConfusion hc⟩

/-- Witness for the photo-path ledger contract: the no-exception successful
run on a fresh user inserts one ScanRecord and commits one debit. -/
theorem handlePhoto_ledger_effects_witness :
    scanCount c2GoodRun.2 2 = scanCount c2DB 2 + 1 ∧
    lifetimeOf c2GoodRun.2 2 = lifetimeOf c2DB 2 + 1 := by
  have h := handlePhoto_ledger_effects 0 theDay c2DB 2 none none c2Analysis
    (some "file1") false .completed c2GoodRun.2 rfl
  have hc := h.2.2.1 rfl
  exact ⟨hc.2.1, hc.2.2⟩

/-- Claim C7 counterexample: the free-units invariant is NOT preserved
regardless of premium status.  A user who consumes the full allowance of 3
(the 4th non-premium attempt fails and changes nothing), then activates
premium, still has free_remaining reported as 999, so the next use_scan
increments the day row past the allowance, to 4. -/
theorem useScan_premium_exceeds_allowance :
    dailyUsed c7DB3 7 theDay = 3 ∧ FREE_DAILY_SCANS = 3 ∧
    c7Attempt4.1 = false ∧ c7Attempt4.2 = c7DB3 ∧
    c7Run5.1 = true ∧ dailyUsed c7Run5.2 7 theDay = 4 := by decide

/-- Claim C7 amended: for a NON-premium user, use_scan preserves
0 ≤ scans_used ≤ FREE_DAILY_SCANS for the current day; for a user with
active premium the free branch is always taken (free_remaining is the 999
sentinel), so the day counter can exceed the allowance. -/
theorem useScan_free_allowance_invariant (now : Int) (today : String)
    (db : DB) (uid : Int) (u : UserRow) (b : Bool) (db2 : DB)
    (hu : findUser db uid = some u)
    (hp : premiumActive now u = false)
    (h0 : 0 ≤ dailyUsed db uid today)
    (hle : dailyUsed db uid today ≤ FREE_DAILY_SCANS)
    (hrun : useScan now today db uid = .ok (b, db2)) :
    0 ≤ dailyUsed db2 uid today ∧ dailyUsed db2 uid today ≤ FREE_DAILY_SCANS := by
  have heB : getEnergyStatus now today db uid = .ok
      ⟨uid, false, dailyUsed db uid today,
        max 0 (FREE_DAILY_SCANS - dailyUsed db uid today), u.bonus_scans,
        max 0 (FREE_DAILY_SCANS - dailyUsed db uid today) + u.bonus_scans,
        u.total_scans⟩ := by
    rw [getEnergyStatus_ok now today db uid u hu, hp]
    rfl
  rw [useScan_eq now today db uid _ heB] at hrun
  split at hrun
  · injection hrun with hrun
    injection hrun with hb hdb
    subst hdb
    exact ⟨h0, hle⟩
  · injection hrun with hrun
    injection hrun with hb hdb
    subst hdb
    unfold useScanDebit
    rw [dailyUsed_bumpTotal]
    split
    · rename_i hfree
      have hfree2 : (0 : Int) <
          max 0 (FREE_DAILY_SCANS - dailyUsed db uid today) := hfree
      have hlt : dailyUsed db uid today < FREE_DAILY_SCANS := by
        rcases lt_max_iff.mp hfree2 with hcon | hpos
        · exact absurd hcon (lt_irrefl 0)
        · omega
      rw [dailyUsed_bumpDaily]
      omega
    · rw [dailyUsed_decBonus]
      exact ⟨h0, hle⟩

/-- Witness for the non-premium allowance invariant: a fresh user at 0 used
consumes once and ends within the allowance. -/
theorem useScan_free_allowance_invariant_witness :
    0 ≤ dailyUsed c7DB1 7 theDay ∧ dailyUsed c7DB1 7 theDay ≤ FREE_DAILY_SCANS :=
  useScan_free_allowance_invariant 0 theDay c7DB0 7 c7User true c7DB1
    rfl rfl (by decide) (by decide) rfl

/-- Claim C8 counterexample: referral-code derivation is NOT collision-checked
and creation CAN fail on a collision.  The decimal ids 25302 and 82945 hash to
the same 8-character md5 prefix 7B763DCB; with the account for 25302 already
created, creating the account for 82945 raises a UNIQUE-constraint violation
instead of regenerating with a salt. -/
theorem getOrCreateUser_collision_fails :
    refCode 25302 = "7B763DCB" ∧ refCode 82945 = "7B763DCB" ∧
    (25302 : Int) ≠ 82945 ∧
    findUser c8DB 25302 = some (newUserRow 25302 none none) ∧
    findUser c8DB 82945 = none ∧
    getOrCreateUser c8DB 82945 none none =
      .error "IntegrityError: UNIQUE constraint failed: users.referral_code" :=
  ⟨rfl, rfl, by decide, rfl, rfl, rfl⟩

/-- Claim C8 amended: get_or_create_user returns the existing account
unchanged when one exists; otherwise it inserts an account whose referral
code is the deterministic fixed-length md5 truncation of the user id — but
there is no collision check: if some existing account already holds the
derived code, the insert fails with a uniqueness violation rather than
regenerating with a salt. -/
theorem getOrCreateUser_spec (db : DB) (uid : Int) (un fn : Option String) :
    (∀ u, findUser db uid = some u → getOrCreateUser db uid un fn = .ok (u, db)) ∧
    (findUser db uid = none →
      db.users.any (fun v => v.referral_code == refCode uid) = false →
      getOrCreateUser db uid un fn =
        .ok (newUserRow uid un fn,
          { db with users := db.users ++ [newUserRow uid un fn] }) ∧
      (newUserRow uid un fn).referral_code = refCode uid) ∧
    (findUser db uid = none →
      db.users.any (fun v => v.referral_code == refCode uid) = true →
      getOrCreateUser db uid un fn =
        .error "IntegrityError: UNIQUE constraint failed: users.referral_code") :=
  ⟨fun u hu => getOrCreateUser_existing db uid un fn u hu,
    fun hu hc => ⟨getOrCreateUser_new db uid un fn hu hc, rfl⟩,
    fun hu hc => getOrCreateUser_collision_eq db uid un fn hu hc⟩

/-- process_referral evaluated when the code does not resolve. -/
theorem processReferral_eq_noCode (db : DB) (code : String) (U : Int)
    (h : db.users.find? (fun u => u.referral_code == code) = none) :
    processReferral db code U = (false, db) := by
  unfold processReferral
  rw [h]

/-- process_referral evaluated on a self-referral. -/
theorem processReferral_eq_self (db : DB) (code : String) (U : Int) (r : UserRow)
    (h : db.users.find? (fun u => u.referral_code == code) = some r)
    (hr : r.user_id = U) :
    processReferral db code U = (false, db) := by
  unfold processReferral
  rw [h]
  dsimp only
  rw [if_pos (beq_iff_eq.mpr hr)]

/-- process_referral evaluated when the referred user already has a Referral
row. -/
theorem processReferral_eq_already (db : DB) (code : String) (U : Int)
    (r : UserRow)
    (h : db.users.find? (fun u => u.referral_code == code) = some r)
    (hne : r.user_id ≠ U)
    (ha : (db.referrals.find? (fun x => x.referred_id == U)).isSome = true) :
    processReferral db code U = (false, db) := by
  unfold processReferral
  rw [h]
  dsimp only
  rw [if_neg (by simpa using hne), if_pos ha]

/-- process_referral evaluated on the success path: the Referral insert and
the two balance credits, spelled out. -/
theorem processReferral_eq_success (db : DB) (code : String) (U : Int)
    (r : UserRow)
    (h : db.users.find? (fun u => u.referral_code == code) = some r)
    (hne : r.user_id ≠ U)
    (hnoref : db.referrals.find? (fun x => x.referred_id == U) = none) :
    processReferral db code U =
      (true, updateUser (updateUser
        { db with referrals :=
            db.referrals ++ [⟨r.user_id, U, REFERRAL_BONUS_SCANS⟩] }
        U (fun u => { u with referred_by := some r.user_id,
                             bonus_scans := u.bonus_scans + 3 }))
        r.user_id
        (fun u => { u with bonus_scans := u.bonus_scans + REFERRAL_BONUS_SCANS })) := by
  unfold processReferral
  rw [h]
  dsimp only
  rw [if_neg (by simpa using hne), if_neg (by rw [hnoref]; simp)]

/-- Claim C4: process_referral returns false with no state change exactly in
the three failure cases (unresolvable code, self-referral, referred user
already linked); on success, within one call it inserts the Referral row,
credits the referrer by the configured referral reward (5), credits the
referred user by the signup bonus (3) and sets referred_by; and a second call
for the same referred user returns false and changes nothing, so the referrer
is credited exactly once. -/
theorem processReferral_spec (db : DB) (code : String) (U : Int) :
    (db.users.find? (fun u => u.referral_code == code) = none →
      processReferral db code U = (false, db)) ∧
    (∀ r, db.users.find? (fun u => u.referral_code == code) = some r →
      r.user_id = U → processReferral db code U = (false, db)) ∧
    (∀ r, db.users.find? (fun u => u.referral_code == code) = some r →
      r.user_id ≠ U →
      (db.referrals.find? (fun x => x.referred_id == U)).isSome = true →
      processReferral db code U = (false, db)) ∧
    (∀ r, db.users.find? (fun u => u.referral_code == code) = some r →
      r.user_id ≠ U →
      db.referrals.find? (fun x => x.referred_id == U) = none →
      (processReferral db code U).1 = true ∧
      (processReferral db code U).2.referrals =
        db.referrals ++ [⟨r.user_id, U, REFERRAL_BONUS_SCANS⟩] ∧
      (∀ uu, findUser db U = some uu →
        findUser (processReferral db code U).2 U =
          some { uu with referred_by := some r.user_id,
                         bonus_scans := uu.bonus_scans + 3 }) ∧
      ((db.users.map (fun v => v.user_id)).Nodup →
        bonusOf (processReferral db code U).2 r.user_id =
          bonusOf db r.user_id + REFERRAL_BONUS_SCANS)) ∧
    (∀ db2, processReferral db code U = (true, db2) →
      processReferral db2 code U = (false, db2)) := by
  refine ⟨fun h => processReferral_eq_noCode db code U h,
    fun r h hr => processReferral_eq_self db code U r h hr,
    fun r h hne ha => processReferral_eq_already db code U r h hne ha,
    ?_, ?_⟩
  · intro r h hne hnoref
    rw [processReferral_eq_success db code U r h hne hnoref]
    refine ⟨rfl, rfl, ?_, ?_⟩
    · intro uu huu
      show findUser (updateUser (updateUser _ U _) r.user_id _) U = _
      rw [findUser_updateUser_ne _ _ _ _ (fun hEq => hne hEq.symm)
        (by intro v; rfl)]
      rw [findUser_updateUser _ _ _ (by intro v; rfl)]
      have huu2 : findUser { db with referrals :=
          db.referrals ++ [⟨r.user_id, U, REFERRAL_BONUS_SCANS⟩] } U =
          some uu := huu
      rw [huu2]
      rfl
    · intro hnd
      have hmem : r ∈ db.users := List.mem_of_find?_eq_some h
      have hfr : findUser db r.user_id = some r :=
        find?_of_mem_nodup ((fun v => v.user_id) : UserRow → Int) r db.users
          hmem hnd
      show bonusOf (updateUser (updateUser _ U _) r.user_id _) r.user_id =
        bonusOf db r.user_id + REFERRAL_BONUS_SCANS
      unfold bonusOf
      rw [findUser_updateUser _ _ _ (by intro v; rfl)]
      rw [findUser_updateUser_ne _ _ _ _ hne (by intro v; rfl)]
      have hfr2 : findUser { db with referrals :=
          db.referrals ++ [⟨r.user_id, U, REFERRAL_BONUS_SCANS⟩] } r.user_id =
          some r := hfr
      rw [hfr2, hfr]
      rfl
  · intro db2 hsucc
    unfold processReferral at hsucc
    split at hsucc
    · injection hsucc with h1 h2
      exact Bool.noConfusion h1
    · rename_i r hfind
      split at hsucc
      · injection hsucc with h1 h2
        exact Bool.noConfusion h1
      · rename_i hneB
        split at hsucc
        · injection hsucc with h1 h2
          exact Bool.noConfusion h1
        · rename_i hrefA
          injection hsucc with h1 h2
          subst h2
          have hneId : r.user_id ≠ U := by simpa using hneB
          have hnoref : db.referrals.find?
              (fun x => x.referred_id == U) = none := by
            cases hx : db.referrals.find? (fun x => x.referred_id == U) with
            | none => rfl
            | some y => rw [hx] at hrefA; exact absurd rfl hrefA
          have hfind2 : (updateUser (updateUser
              { db with referrals :=
                  db.referrals ++ [⟨r.user_id, U, REFERRAL_BONUS_SCANS⟩] }
              U (fun u => { u with referred_by := some r.user_id,
                                   bonus_scans := u.bonus_scans + 3 }))
              r.user_id
              (fun u => { u with bonus_scans :=
                  u.bonus_scans + REFERRAL_BONUS_SCANS })).users.find?
              (fun u => u.referral_code == code) =
              some { r with bonus_scans := r.bonus_scans + REFERRAL_BONUS_SCANS } := by
            rw [find?_users_updateUser _ _ _ _ (by intro v; rfl)]
            rw [find?_users_updateUser _ _ _ _ (by intro v; rfl)]
            have hA : ({ db with referrals :=
                db.referrals ++ [⟨r.user_id, U, REFERRAL_BONUS_SCANS⟩] } : DB).users.find?
                (fun u => u.referral_code == code) = some r := hfind
            rw [hA]
            simp [hneId]
          refine processReferral_eq_already _ code U _ hfind2 hneId ?_
          show ((db.referrals ++
              [(⟨r.user_id, U, REFERRAL_BONUS_SCANS⟩ : ReferralRow)]).find?
            (fun x => x.referred_id == U)).isSome = true
          rw [List.find?_append, hnoref]
          simp [List.find?]

end BertScanner
